import Mathlib

/-!
Verification development for the Plataforma-8D report application
(`src/App.jsx`). The application edits nested "8D" report documents held
in an external document store. We embed:

* the JSON-like document values the store holds (`JValue`) and the
  store's field-path update semantics (modelled from the spec, since the
  store is an external collaborator);
* the report-creation payload `newReportJson` (lines 114-143);
* the workspace update handlers `handleUpdate` / `handleDeepUpdate`
  (lines 380-398);
* the discipline navigation (`handleSelect`, lines 489-492, and the
  workspace load effect, lines 374-378);
* the dashboard delete flow (`openDeleteModal` / `confirmDelete` /
  `handleDeleteReport`, lines 150-158 and 241-253);
* the PDF export content pipeline `generatePdf` (lines 299-367).
-/

/-- A JSON-like document value as stored in the document database.
`timestamp` stands for the opaque server timestamp sentinel. -/
inductive JValue where
  | str (s : String)
  | bool (b : Bool)
  | arr (elems : List JValue)
  | obj (fields : List (String × JValue))
  | timestamp

/-- The fields of an object value; non-objects have no fields. -/
def jFields : JValue → List (String × JValue)
  | JValue.obj fields => fields
  | _ => []

/-- Look a key up in an object field list (first match wins). -/
def getKey : List (String × JValue) → String → Option JValue
  | [], _ => none
  | kv :: rest, k => if kv.1 = k then some kv.2 else getKey rest k

/-- Replace the value at a key, or append the binding when absent. -/
def setKey : List (String × JValue) → String → JValue → List (String × JValue)
  | [], k, v => [(k, v)]
  | kv :: rest, k, v => if kv.1 = k then (k, v) :: rest else kv :: setKey rest k v

/-- Follow a key path into nested objects. -/
def getPath : JValue → List String → Option JValue
  | v, [] => some v
  | JValue.obj fields, k :: rest =>
      match getKey fields k with
      | some sub => getPath sub rest
      | none => none
  | _, _ :: _ => none

/-- Modelled from the spec: the document store's `update-field(path, value)`
semantics (§6) — the dotted path addresses a sub-field of a nested mapping
and only that sub-field is replaced; missing intermediate maps are created. -/
def updatePath : List String → JValue → JValue → JValue
  | [], v, _ => v
  | k :: rest, v, JValue.obj fields =>
      JValue.obj (setKey fields k (updatePath rest v ((getKey fields k).getD (JValue.obj []))))
  | k :: rest, v, _ =>
      JValue.obj [(k, updatePath rest v (JValue.obj []))]

/-- Split a field path at the dots, accumulating the current segment. -/
def splitDotsAux : List Char → List Char → List String
  | [], acc => [String.mk acc.reverse]
  | c :: cs, acc =>
      if c = '.' then String.mk acc.reverse :: splitDotsAux cs []
      else splitDotsAux cs (c :: acc)

/-- Modelled from the spec: the store resolves a dot-separated field path
string (for example `d2_problem.where`) into its segments (§6). -/
def parseFieldPath (p : String) : List String :=
  splitDotsAux p.toList []

/-- The document store: document id to document, as seen by one client. -/
def Store := List (String × JValue)

/-- Modelled from the spec: `update-field(path, value)` on one document of
the store; updating a nonexistent document is rejected by the store. -/
def storeUpdateDoc (st : Store) (id : String) (p : String) (v : JValue) : Store :=
  match getKey st id with
  | some d => setKey st id (updatePath (parseFieldPath p) v d)
  | none => st

/-- Modelled from the spec: `delete-document(id)` (§6). -/
def removeKey : Store → String → Store
  | [], _ => []
  | kv :: rest, id => if kv.1 = id then removeKey rest id else kv :: removeKey rest id

/-- `Workspace.handleUpdate` (App.jsx lines 380-388): guarded by `db` and
`reportId`, then a single-field `updateDoc` at the report's path; a rejected
write is caught and only logged. The returned list is the console-error log. -/
def handleUpdate (dbOk : Bool) (reportId : Option String) (writeFails : Bool)
    (field : String) (v : JValue) (st : Store) : Store × List String :=
  match dbOk, reportId with
  | true, some rid =>
      if writeFails then (st, ["Error updating document: "])
      else (storeUpdateDoc st rid field v, [])
  | _, _ => (st, [])

/-- `Workspace.handleDeepUpdate` (App.jsx lines 390-398): identical guard and
identical single-field `updateDoc` call `{ [path]: value }`, differing from
`handleUpdate` only in the logged error message. -/
def handleDeepUpdate (dbOk : Bool) (reportId : Option String) (writeFails : Bool)
    (path : String) (v : JValue) (st : Store) : Store × List String :=
  match dbOk, reportId with
  | true, some rid =>
      if writeFails then (st, ["Error performing deep update:"])
      else (storeUpdateDoc st rid path v, [])
  | _, _ => (st, [])

/-- The only caller-observable failure signal of a deep update: the JS
function always resolves to `undefined`, so a failure can only surface
through the console-error log. -/
def deepUpdateSignalsError (out : Store × List String) : Prop :=
  out.2 ≠ []

instance (out : Store × List String) : Decidable (deepUpdateSignalsError out) := by
  unfold deepUpdateSignalsError
  infer_instance

/-- Default report title (App.jsx line 117). -/
def newReportTitle (dateStr : String) : String :=
  "Nuevo Informe 8D - " ++ dateStr

/-- The exact document payload `handleCreateNewReport` passes to `addDoc`
(App.jsx lines 121-137). -/
def newReportJson (userId dateStr : String) : JValue :=
  JValue.obj
    [ ("title", JValue.str (newReportTitle dateStr)),
      ("createdBy", JValue.str userId),
      ("createdAt", JValue.timestamp),
      ("currentDiscipline", JValue.str "D1"),
      ("d1_team", JValue.arr
        [JValue.obj [("name", JValue.str ("Usuario " ++ userId.take 6)),
                     ("role", JValue.str "Líder")]]),
      ("d2_problem", JValue.obj
        [("what", JValue.str ""), ("where", JValue.str ""), ("when", JValue.str ""),
         ("who", JValue.str ""), ("why", JValue.str ""), ("how", JValue.str ""),
         ("how_many", JValue.str "")]),
      ("d3_containment", JValue.arr
        [JValue.obj [("action", JValue.str ""), ("responsible", JValue.str ""),
                     ("date", JValue.str ""), ("verified", JValue.bool false)]]),
      ("d4_root_cause", JValue.obj
        [("five_whys", JValue.arr [JValue.str ""]),
         ("fishbone", JValue.obj
           [("Manpower", JValue.arr []), ("Machine", JValue.arr []),
            ("Method", JValue.arr []), ("Material", JValue.arr []),
            ("Measurement", JValue.arr []), ("Environment", JValue.arr [])])]),
      ("d5_corrective_actions", JValue.arr
        [JValue.obj [("action", JValue.str ""), ("responsible", JValue.str ""),
                     ("date", JValue.str ""), ("verified", JValue.bool false)]]),
      ("d6_implementation", JValue.obj
        [("summary", JValue.str ""), ("validation_results", JValue.str "")]),
      ("d7_prevention", JValue.obj
        [("updated_docs", JValue.str ""), ("new_standards", JValue.str "")]),
      ("d8_recognition", JValue.obj
        [("summary", JValue.str ""), ("celebration_date", JValue.str "")]) ]

/-- The two top-level screens of the application (App.jsx line 36). -/
inductive View where
  | dashboard
  | workspace

/-- The app-level state `handleCreateNewReport`, `handleSelectReport` and
`handleDeleteReport` act on: current screen, active report id, and the
client's view of the store. -/
structure AppState where
  view : View
  activeReportId : Option String
  store : Store

/-- Modelled from the spec: `create-document` of the store returns the fresh
document id (§6); here the store-chosen id is passed in as `newId`. -/
def addDocReport (st : Store) (newId : String) (docv : JValue) : Store :=
  (newId, docv) :: st

/-- `handleCreateNewReport` (App.jsx lines 114-143): guarded by `db` and
`userId` (silent return), then `addDoc` with the default skeleton followed by
`setActiveReportId(docRef.id)` and `setView('workspace')`; a rejected
`addDoc` is caught and only logged. -/
def handleCreateNewReport (dbOk : Bool) (userId : Option String) (createFails : Bool)
    (dateStr newId : String) (s : AppState) : AppState :=
  match dbOk, userId with
  | true, some uid =>
      if createFails then s
      else { view := View.workspace, activeReportId := some newId,
             store := addDocReport s.store newId (newReportJson uid dateStr) }
  | _, _ => s

/-- `handleSelectReport` (App.jsx lines 145-148): the card click selects the
report for editing and switches to the workspace. -/
def handleSelectReport (s : AppState) (id : String) : AppState :=
  { s with activeReportId := some id, view := View.workspace }

/-- `handleDeleteReport` (App.jsx lines 150-158): guarded by `db`, then
`deleteDoc` on the report's path; a rejected delete is caught and only
logged. Only the store is touched — never the view or the selection. -/
def handleDeleteReport (dbOk : Bool) (deleteFails : Bool) (id : String) (st : Store) : Store :=
  match dbOk with
  | true => if deleteFails then st else removeKey st id
  | false => st

/-- Dashboard-local state: the confirmation modal and the id it is about
(App.jsx lines 238-239). -/
structure DashState where
  app : AppState
  modalOpen : Bool
  reportToDelete : Option String

/-- `Dashboard.openDeleteModal` (App.jsx lines 241-245): records the id,
opens the modal, and calls `e.stopPropagation()` — the returned flag says
whether propagation of the click was stopped. -/
def openDeleteModal (ds : DashState) (id : String) : DashState × Bool :=
  ({ ds with reportToDelete := some id, modalOpen := true }, true)

/-- A click on a card's trash button: the button's own handler runs first;
if it does not stop propagation the click bubbles to the containing card,
whose handler is `onSelectReport` (App.jsx lines 283-285). -/
def dispatchDeleteClick (ds : DashState) (id : String) : DashState :=
  match openDeleteModal ds id with
  | (ds1, stopped) =>
      if stopped then ds1
      else { ds1 with app := handleSelectReport ds1.app id }

/-- `Dashboard.confirmDelete` (App.jsx lines 247-253): delete the recorded
report if any, then close and clear the modal. -/
def confirmDelete (dbOk : Bool) (deleteFails : Bool) (ds : DashState) : DashState :=
  match ds.reportToDelete with
  | some id =>
      { app := { ds.app with store := handleDeleteReport dbOk deleteFails id ds.app.store },
        modalOpen := false, reportToDelete := none }
  | none => { ds with modalOpen := false, reportToDelete := none }

/-- The eight discipline identifiers (App.jsx lines 478-487). -/
def disciplineIds : List String :=
  ["D1", "D2", "D3", "D4", "D5", "D6", "D7", "D8"]

/-- The workspace's visible navigation state (App.jsx line 371, initially
`D1`). -/
structure WorkspaceState where
  activeDiscipline : String

/-- `DisciplineNav.handleSelect` (App.jsx lines 489-492): `setActive(id)`
then `onUpdate(id)`, which is `handleUpdate('currentDiscipline', id)`
(App.jsx line 467). -/
def handleSelect (ws : WorkspaceState) (d : String) (dbOk : Bool)
    (reportId : Option String) (writeFails : Bool) (st : Store) :
    WorkspaceState × (Store × List String) :=
  ((fun _ => { activeDiscipline := d }) ws,
   handleUpdate dbOk reportId writeFails "currentDiscipline" (JValue.str d) st)

/-- The workspace load effect's truthiness test on the stored
`currentDiscipline` (the schema makes it a string; the empty string is
falsy in JS). -/
def truthyDiscipline : Option JValue → String
  | some (JValue.str s) => if s = "" then "D1" else s
  | _ => "D1"

/-- The workspace load effect (App.jsx lines 374-378): the active discipline
starts at `D1` and is set to the report's `currentDiscipline` when that
field is present and truthy. -/
def workspaceActiveOnLoad (report : JValue) : String :=
  truthyDiscipline (getKey (jFields report) "currentDiscipline")

/-- Remounting the workspace on a store: initial state `D1`, then the
snapshot of the document (when found) drives the load effect. -/
def reloadActive (st : Store) (rid : String) : String :=
  match getKey st rid with
  | some d => workspaceActiveOnLoad d
  | none => "D1"

/-! ### Export adapter (`generatePdf`, App.jsx lines 299-367) -/

/-- One member of the D1 team roster. -/
structure TeamMember where
  name : String
  role : String

/-- One containment / corrective action row. -/
structure ActionItem where
  action : String
  responsible : String
  date : String
  verified : Bool

/-- The 5W2H problem description (field creation order of App.jsx
line 127, which is the `Object.entries` order). -/
structure Problem5W2H where
  what : String
  where_ : String
  when_ : String
  who : String
  why : String
  how : String
  how_many : String

/-- The fishbone mapping with its six fixed categories (creation order of
App.jsx line 131, which is the `Object.entries` order). -/
structure Fishbone where
  Manpower : List String
  Machine : List String
  Method : List String
  Material : List String
  Measurement : List String
  Environment : List String

/-- The D4 slice: five-whys list and fishbone mapping. -/
structure RootCause where
  five_whys : List String
  fishbone : Fishbone

/-- The report slice `generatePdf` consumes. -/
structure Report where
  id : String
  title : String
  d1_team : List TeamMember
  d2_problem : Problem5W2H
  d3_containment : List ActionItem
  d4_root_cause : RootCause

/-- One content block handed to the external paginated-document renderer:
a heading, a free-text line, or a table with a header row. -/
inductive PdfBlock where
  | heading (s : String)
  | text (s : String)
  | table (head : List String) (rows : List (List String))

/-- `Object.entries(report.d2_problem)` in insertion order. -/
def problemEntries (p : Problem5W2H) : List (String × String) :=
  [("what", p.what), ("where", p.where_), ("when", p.when_), ("who", p.who),
   ("why", p.why), ("how", p.how), ("how_many", p.how_many)]

/-- `Object.entries(report.d4_root_cause.fishbone)` in insertion order. -/
def fishboneEntries (f : Fishbone) : List (String × List String) :=
  [("Manpower", f.Manpower), ("Machine", f.Machine), ("Method", f.Method),
   ("Material", f.Material), ("Measurement", f.Measurement),
   ("Environment", f.Environment)]

/-- The fishbone table body (App.jsx line 360): one row per category, the
causes joined with a newline into one display value. -/
def fishboneRows (f : Fishbone) : List (List String) :=
  (fishboneEntries f).map (fun kv => [kv.1, String.intercalate "\n" kv.2])

/-- The numbered five-whys lines, `i+1. why` (App.jsx lines 348-352). -/
def numberFrom : Nat → List String → List String
  | _, [] => []
  | i, w :: ws => (toString (i + 1) ++ ". " ++ w) :: numberFrom (i + 1) ws

/-- The rendered five-whys list of the D4 section. -/
def fiveWhysLines (whys : List String) : List String :=
  numberFrom 0 whys

/-- The export content up to and including the `5 Porqués:` label
(App.jsx lines 304-345). -/
def pdfBlocksBeforeWhys (r : Report) : List PdfBlock :=
  [ PdfBlock.heading "Informe 8D",
    PdfBlock.heading r.title,
    PdfBlock.heading "D1: Formar el Equipo",
    PdfBlock.table ["Nombre", "Rol"] (r.d1_team.map (fun m => [m.name, m.role])),
    PdfBlock.heading "D2: Describir el Problema (5W2H)",
    PdfBlock.table ["Pregunta", "Descripción"]
      ((problemEntries r.d2_problem).map (fun kv => [kv.1, kv.2])),
    PdfBlock.heading "D3: Acciones de Contención",
    PdfBlock.table ["Acción", "Responsable", "Fecha"]
      (r.d3_containment.map (fun a => [a.action, a.responsible, a.date])),
    PdfBlock.heading "D4: Análisis de Causa Raíz",
    PdfBlock.text "5 Porqués:" ]

/-- The export content after the five-whys list: the fishbone label and
table (App.jsx lines 356-361). -/
def pdfBlocksAfterWhys (r : Report) : List PdfBlock :=
  [ PdfBlock.text "Diagrama de Ishikawa:",
    PdfBlock.table ["Categoría", "Causas Potenciales"]
      (fishboneRows r.d4_root_cause.fishbone) ]

/-- The full ordered export content of `generatePdf` (coordinates and page
breaks belong to the external renderer and are not content). -/
def generatePdfBlocks (r : Report) : List PdfBlock :=
  pdfBlocksBeforeWhys r
    ++ (fiveWhysLines r.d4_root_cause.five_whys).map PdfBlock.text
    ++ pdfBlocksAfterWhys r

/-! ### Helper lemmas about the store model -/

theorem getKey_setKey_self (l : List (String × JValue)) (k : String) (v : JValue) :
    getKey (setKey l k v) k = some v := by
  induction l with
  | nil => simp [setKey, getKey]
  | cons kv tl ih =>
      by_cases h : kv.1 = k
      · simp [setKey, getKey, h]
      · simp [setKey, getKey, h, ih]

theorem getKey_setKey_ne (l : List (String × JValue)) (k k2 : String) (v : JValue)
    (h : k2 ≠ k) : getKey (setKey l k v) k2 = getKey l k2 := by
  induction l with
  | nil => simp [setKey, getKey, Ne.symm h]
  | cons kv tl ih =>
      by_cases hk : kv.1 = k
      · simp [setKey, getKey, hk, Ne.symm h]
      · simp [setKey, getKey, hk, ih]

theorem getPath_nil (v : JValue) : getPath v [] = some v := by
  cases v <;> rfl

theorem updatePath_nil (v d : JValue) : updatePath [] v d = v := by
  cases d <;> rfl

theorem getPath_updatePath (p : List String) (v d : JValue) :
    getPath (updatePath p v d) p = some v := by
  induction p generalizing d with
  | nil => rw [updatePath_nil, getPath_nil]
  | cons k rest ih =>
      cases d <;> simp [updatePath, getPath, getKey, getKey_setKey_self, ih]

theorem jFields_updatePath_cons (k : String) (rest : List String) (v : JValue)
    (fields : List (String × JValue)) :
    jFields (updatePath (k :: rest) v (JValue.obj fields))
      = setKey fields k (updatePath rest v ((getKey fields k).getD (JValue.obj []))) := rfl

theorem getKey_updatePath_single (k : String) (v d : JValue) :
    getKey (jFields (updatePath [k] v d)) k = some v := by
  cases d <;> simp [updatePath, jFields, getKey, getKey_setKey_self]

theorem getKey_removeKey (st : Store) (id : String) :
    getKey (removeKey st id) id = none := by
  induction st with
  | nil => rfl
  | cons kv tl ih =>
      by_cases h : kv.1 = id
      · simp [removeKey, h, ih]
      · simp [removeKey, getKey, h, ih]

/-- Two field paths diverge when they agree on a (possibly empty) common
stem and then continue with different keys: each addresses a sibling of the
other at the first differing level. -/
inductive PathDiverges : List String → List String → Prop
  | head {k1 k2 : String} {p q : List String} :
      k1 ≠ k2 → PathDiverges (k1 :: p) (k2 :: q)
  | tail {k : String} {p q : List String} :
      PathDiverges p q → PathDiverges (k :: p) (k :: q)

theorem PathDiverges.right_ne_nil {p q : List String} (h : PathDiverges p q) :
    ∃ k0 q0, q = k0 :: q0 := by
  cases h with
  | head hne => exact ⟨_, _, rfl⟩
  | tail h2 => exact ⟨_, _, rfl⟩

theorem getPath_obj_nil_cons (k : String) (q : List String) :
    getPath (JValue.obj []) (k :: q) = none := rfl

/-- Deep frame property of the store's field-path update: a path that
diverges from the updated path — a sibling at any nesting level — reads the
same value before and after the update. -/
theorem getPath_updatePath_diverges {p q : List String} (v : JValue)
    (hpq : PathDiverges p q) :
    ∀ d, getPath (updatePath p v d) q = getPath d q := by
  induction hpq with
  | head hne =>
      intro d
      cases d with
      | obj fields =>
          simp only [updatePath, getPath]
          rw [getKey_setKey_ne _ _ _ _ (Ne.symm hne)]
      | str s => simp [updatePath, getPath, getKey, hne]
      | bool b => simp [updatePath, getPath, getKey, hne]
      | arr elems => simp [updatePath, getPath, getKey, hne]
      | timestamp => simp [updatePath, getPath, getKey, hne]
  | tail h2 ih =>
      rename_i k p q
      intro d
      obtain ⟨k0, q0, rfl⟩ := h2.right_ne_nil
      cases d with
      | obj fields =>
          simp only [updatePath, getPath, getKey_setKey_self]
          rw [ih]
          cases hk : getKey fields k with
          | some sub => simp
          | none => simp [getPath, getKey]
      | str s =>
          simp [updatePath, getPath, getKey]
          rw [ih]
          exact getPath_obj_nil_cons _ _
      | bool b =>
          simp [updatePath, getPath, getKey]
          rw [ih]
          exact getPath_obj_nil_cons _ _
      | arr elems =>
          simp [updatePath, getPath, getKey]
          rw [ih]
          exact getPath_obj_nil_cons _ _
      | timestamp =>
          simp [updatePath, getPath, getKey]
          rw [ih]
          exact getPath_obj_nil_cons _ _

/-! ### Claim theorems -/

/-- C1: every successful report creation writes a document holding all
eight top-level discipline fields with the exact default shapes: `d2_problem`
has exactly the seven 5W2H keys, each the empty string; `five_whys` is the
one-element list of the empty string; the fishbone has exactly the six fixed
categories, each mapped to the empty list; `currentDiscipline` is `D1`. -/
theorem create_report_default_shapes (uid dateStr : String) :
    getKey (jFields (newReportJson uid dateStr)) "d1_team"
      = some (JValue.arr
          [JValue.obj [("name", JValue.str ("Usuario " ++ uid.take 6)),
                       ("role", JValue.str "Líder")]])
    ∧ getKey (jFields (newReportJson uid dateStr)) "d2_problem"
      = some (JValue.obj
          [("what", JValue.str ""), ("where", JValue.str ""), ("when", JValue.str ""),
           ("who", JValue.str ""), ("why", JValue.str ""), ("how", JValue.str ""),
           ("how_many", JValue.str "")])
    ∧ getKey (jFields (newReportJson uid dateStr)) "d3_containment"
      = some (JValue.arr
          [JValue.obj [("action", JValue.str ""), ("responsible", JValue.str ""),
                       ("date", JValue.str ""), ("verified", JValue.bool false)]])
    ∧ getPath (newReportJson uid dateStr) ["d4_root_cause", "five_whys"]
      = some (JValue.arr [JValue.str ""])
    ∧ getPath (newReportJson uid dateStr) ["d4_root_cause", "fishbone"]
      = some (JValue.obj
          [("Manpower", JValue.arr []), ("Machine", JValue.arr []),
           ("Method", JValue.arr []), ("Material", JValue.arr []),
           ("Measurement", JValue.arr []), ("Environment", JValue.arr [])])
    ∧ getKey (jFields (newReportJson uid dateStr)) "d5_corrective_actions"
      = some (JValue.arr
          [JValue.obj [("action", JValue.str ""), ("responsible", JValue.str ""),
                       ("date", JValue.str ""), ("verified", JValue.bool false)]])
    ∧ getKey (jFields (newReportJson uid dateStr)) "d6_implementation"
      = some (JValue.obj [("summary", JValue.str ""), ("validation_results", JValue.str "")])
    ∧ getKey (jFields (newReportJson uid dateStr)) "d7_prevention"
      = some (JValue.obj [("updated_docs", JValue.str ""), ("new_standards", JValue.str "")])
    ∧ getKey (jFields (newReportJson uid dateStr)) "d8_recognition"
      = some (JValue.obj [("summary", JValue.str ""), ("celebration_date", JValue.str "")])
    ∧ getKey (jFields (newReportJson uid dateStr)) "currentDiscipline"
      = some (JValue.str "D1") :=
  ⟨rfl, rfl, rfl, rfl, rfl, rfl, rfl, rfl, rfl, rfl⟩

/-- C2: a deep update at a valid dotted field path leaves the addressed
subtree equal to the new value, leaves every top-level sibling field of the
document bit-identical, leaves every sibling at every nesting level
bit-identical (every path diverging from the updated one reads the same
value before and after), and leaves all other documents of the store
untouched — it never replaces the whole document. -/
theorem deep_update_frame (rid p : String) (v : JValue)
    (fields : List (String × JValue)) (st : Store) (k : String) (rest : List String)
    (hdoc : getKey st rid = some (JValue.obj fields))
    (hp : parseFieldPath p = k :: rest) :
    getKey (handleDeepUpdate true (some rid) false p v st).1 rid
      = some (updatePath (k :: rest) v (JValue.obj fields))
    ∧ getPath (updatePath (k :: rest) v (JValue.obj fields)) (k :: rest) = some v
    ∧ (∀ k2, k2 ≠ k →
        getKey (jFields (updatePath (k :: rest) v (JValue.obj fields))) k2
          = getKey fields k2)
    ∧ (∀ rid2, rid2 ≠ rid →
        getKey (handleDeepUpdate true (some rid) false p v st).1 rid2
          = getKey st rid2)
    ∧ (∀ q, PathDiverges (k :: rest) q →
        getPath (updatePath (k :: rest) v (JValue.obj fields)) q
          = getPath (JValue.obj fields) q) := by
  have hst : (handleDeepUpdate true (some rid) false p v st).1
      = setKey st rid (updatePath (k :: rest) v (JValue.obj fields)) := by
    simp [handleDeepUpdate, storeUpdateDoc, hdoc, hp]
  refine ⟨?_, getPath_updatePath _ _ _, ?_, ?_, ?_⟩
  · rw [hst]
    exact getKey_setKey_self _ _ _
  · intro k2 hk2
    rw [jFields_updatePath_cons]
    exact getKey_setKey_ne _ _ _ _ hk2
  · intro rid2 hrid2
    rw [hst]
    exact getKey_setKey_ne _ _ _ _ hrid2
  · intro q hq
    exact getPath_updatePath_diverges v hq _

/-- The fields of the document used to exercise the deep update. -/
def demoDocC2Fields : List (String × JValue) :=
  [("d2_problem", JValue.obj [("what", JValue.str ""), ("where", JValue.str "")]),
   ("d1_team", JValue.arr [])]

/-- A two-document store used to exercise the deep update. -/
def demoStoreC2 : Store :=
  [("r1", JValue.obj demoDocC2Fields), ("r2", JValue.str "other")]

/-- C2 witness: a concrete deep update of `d2_problem.where` updates that
subtree and preserves the nested sibling `d2_problem.what` (still the empty
string), the top-level sibling `d1_team`, and the other document `r2`. -/
theorem deep_update_frame_witness :
    getKey (handleDeepUpdate true (some "r1") false "d2_problem.where"
        (JValue.str "line 3") demoStoreC2).1 "r1"
      = some (updatePath ["d2_problem", "where"] (JValue.str "line 3")
          (JValue.obj demoDocC2Fields))
    ∧ getPath (updatePath ["d2_problem", "where"] (JValue.str "line 3")
        (JValue.obj demoDocC2Fields)) ["d2_problem", "where"]
      = some (JValue.str "line 3")
    ∧ getKey (jFields (updatePath ["d2_problem", "where"] (JValue.str "line 3")
        (JValue.obj demoDocC2Fields))) "d1_team"
      = getKey demoDocC2Fields "d1_team"
    ∧ getKey (handleDeepUpdate true (some "r1") false "d2_problem.where"
        (JValue.str "line 3") demoStoreC2).1 "r2"
      = getKey demoStoreC2 "r2"
    ∧ getPath (updatePath ["d2_problem", "where"] (JValue.str "line 3")
        (JValue.obj demoDocC2Fields)) ["d2_problem", "what"]
      = some (JValue.str "") := by
  have h := deep_update_frame "r1" "d2_problem.where" (JValue.str "line 3")
    demoDocC2Fields demoStoreC2 "d2_problem" ["where"] rfl rfl
  refine ⟨h.1, h.2.1, h.2.2.1 "d1_team" (by decide), h.2.2.2.1 "r2" (by decide), ?_⟩
  have hdiv : PathDiverges ["d2_problem", "where"] ["d2_problem", "what"] :=
    PathDiverges.tail (PathDiverges.head (by decide))
  exact (h.2.2.2.2 ["d2_problem", "what"] hdiv).trans rfl

/-- C3: selecting any discipline `d` while `s` is active always succeeds —
the visible active discipline becomes `d` and `currentDiscipline` is
persisted to `d` on the report document — and remounting the workspace on
the stored report resumes at `d` (round-trip); a report without a
`currentDiscipline` field loads at the default `D1`. -/
theorem select_discipline_roundtrip (s d : String)
    (hs : s ∈ disciplineIds) (hd : d ∈ disciplineIds)
    (rid : String) (docv : JValue) (st : Store)
    (hdoc : getKey st rid = some docv) :
    (handleSelect ⟨s⟩ d true (some rid) false st).1.activeDiscipline = d
    ∧ getKey (handleSelect ⟨s⟩ d true (some rid) false st).2.1 rid
        = some (updatePath ["currentDiscipline"] (JValue.str d) docv)
    ∧ getPath (updatePath ["currentDiscipline"] (JValue.str d) docv)
        ["currentDiscipline"] = some (JValue.str d)
    ∧ reloadActive (handleSelect ⟨s⟩ d true (some rid) false st).2.1 rid = d
    ∧ (∀ r2, getKey (jFields r2) "currentDiscipline" = none →
        workspaceActiveOnLoad r2 = "D1") := by
  have hne : d ≠ "" := by
    simp only [disciplineIds, List.mem_cons, List.not_mem_nil, or_false] at hd
    rcases hd with rfl | rfl | rfl | rfl | rfl | rfl | rfl | rfl <;> decide
  have hpp : parseFieldPath "currentDiscipline" = ["currentDiscipline"] := rfl
  have hst : (handleSelect ⟨s⟩ d true (some rid) false st).2.1
      = setKey st rid (updatePath ["currentDiscipline"] (JValue.str d) docv) := by
    simp [handleSelect, handleUpdate, storeUpdateDoc, hdoc, hpp]
  have hget : getKey (handleSelect ⟨s⟩ d true (some rid) false st).2.1 rid
      = some (updatePath ["currentDiscipline"] (JValue.str d) docv) := by
    rw [hst]
    exact getKey_setKey_self _ _ _
  refine ⟨rfl, hget, getPath_updatePath _ _ _, ?_, ?_⟩
  · simp [reloadActive, hget, workspaceActiveOnLoad, getKey_updatePath_single,
      truthyDiscipline, hne]
  · intro r2 h2
    simp [workspaceActiveOnLoad, h2, truthyDiscipline]

/-- The stored report used to exercise discipline navigation. -/
def demoDocC3 : JValue := JValue.obj [("currentDiscipline", JValue.str "D1")]

/-- A one-document store used to exercise discipline navigation. -/
def demoStoreC3 : Store := [("r1", demoDocC3)]

/-- C3 witness: navigating from `D1` to `D5` sets the visible active
discipline to `D5` and a remount of the workspace resumes at `D5`. -/
theorem select_discipline_roundtrip_witness :
    (handleSelect ⟨"D1"⟩ "D5" true (some "r1") false demoStoreC3).1.activeDiscipline = "D5"
    ∧ reloadActive (handleSelect ⟨"D1"⟩ "D5" true (some "r1") false demoStoreC3).2.1 "r1"
        = "D5" := by
  have h := select_discipline_roundtrip "D1" "D5" (by decide) (by decide)
    "r1" demoDocC3 demoStoreC3 rfl
  exact ⟨h.1, h.2.2.2.1⟩

/-- C4 counterexample: with the report id absent (and likewise with the
store unavailable) the deep update performs no write but also reports
nothing to the caller — the JS function resolves to `undefined` on every
path, and in the guard branch it does not even log, so no failure is
surfaced; the claim that the no-op "reports failure to the caller" fails. -/
theorem deep_update_guard_reports_nothing :
    (handleDeepUpdate true none false "d2_problem.what" (JValue.str "x") demoStoreC2).1
      = demoStoreC2
    ∧ ¬ deepUpdateSignalsError
        (handleDeepUpdate true none false "d2_problem.what" (JValue.str "x") demoStoreC2)
    ∧ handleDeepUpdate false (some "r1") false "d2_problem.what" (JValue.str "x") demoStoreC2
      = (demoStoreC2, []) := by
  exact ⟨rfl, by decide, rfl⟩

/-- C4 (amended): when the report id is absent or the backing store is
unavailable, the deep update is a silent no-op — the store is unchanged and
no failure indication of any kind reaches the caller (nothing is logged and
nothing is thrown). -/
theorem deep_update_guard_noop (dbOk : Bool) (rid : Option String)
    (writeFails : Bool) (p : String) (v : JValue) (st : Store)
    (h : dbOk = false ∨ rid = none) :
    handleDeepUpdate dbOk rid writeFails p v st = (st, []) := by
  rcases h with h | h
  · subst h
    cases rid <;> rfl
  · subst h
    cases dbOk <;> rfl

/-- C4 witness: a concrete silent no-op with the store unavailable. -/
theorem deep_update_guard_noop_witness :
    handleDeepUpdate false (some "r9") false "d1_team" (JValue.str "x") demoStoreC3
      = (demoStoreC3, []) :=
  deep_update_guard_noop false (some "r9") false "d1_team" (JValue.str "x")
    demoStoreC3 (Or.inl rfl)

/-- C5: exporting a report whose `five_whys` is exactly the given
three-entry list renders, between the `5 Porqués:` label and the fishbone
material, exactly those three entries in order, numbered `1.`, `2.`, `3.`. -/
theorem export_five_whys_numbered (r : Report)
    (h : r.d4_root_cause.five_whys
      = ["no calibration", "sensor drift", "no maintenance schedule"]) :
    fiveWhysLines r.d4_root_cause.five_whys
      = ["1. no calibration", "2. sensor drift", "3. no maintenance schedule"]
    ∧ generatePdfBlocks r
      = pdfBlocksBeforeWhys r
          ++ [PdfBlock.text "1. no calibration", PdfBlock.text "2. sensor drift",
              PdfBlock.text "3. no maintenance schedule"]
          ++ pdfBlocksAfterWhys r := by
  have h1 : fiveWhysLines r.d4_root_cause.five_whys
      = ["1. no calibration", "2. sensor drift", "3. no maintenance schedule"] := by
    rw [h]
    decide
  refine ⟨h1, ?_⟩
  simp only [generatePdfBlocks, h1, List.map]

/-- The report used to exercise the five-whys export. -/
def demoReportC5 : Report :=
  { id := "r1", title := "Informe de prueba",
    d1_team := [⟨"Ana", "Líder"⟩],
    d2_problem := ⟨"", "", "", "", "", "", ""⟩,
    d3_containment := [],
    d4_root_cause :=
      ⟨["no calibration", "sensor drift", "no maintenance schedule"],
       ⟨[], [], [], [], [], []⟩⟩ }

/-- C5 witness: the numbered list for the concrete report. -/
theorem export_five_whys_numbered_witness :
    fiveWhysLines demoReportC5.d4_root_cause.five_whys
      = ["1. no calibration", "2. sensor drift", "3. no maintenance schedule"] :=
  (export_five_whys_numbered demoReportC5 rfl).1

/-- C6: exporting a report whose fishbone maps `Machine` to
`["worn bearing"]` and every other category to the empty list produces a
fishbone table with exactly six rows, one per category in the fixed order
Manpower, Machine, Method, Material, Measurement, Environment, the
`Machine` row's cause text `worn bearing` and every other row's cause text
empty. -/
theorem export_fishbone_rows (r : Report)
    (h : r.d4_root_cause.fishbone = Fishbone.mk [] ["worn bearing"] [] [] [] []) :
    fishboneRows r.d4_root_cause.fishbone
      = [["Manpower", ""], ["Machine", "worn bearing"], ["Method", ""],
         ["Material", ""], ["Measurement", ""], ["Environment", ""]]
    ∧ (fishboneRows r.d4_root_cause.fishbone).length = 6
    ∧ pdfBlocksAfterWhys r
      = [PdfBlock.text "Diagrama de Ishikawa:",
         PdfBlock.table ["Categoría", "Causas Potenciales"]
           [["Manpower", ""], ["Machine", "worn bearing"], ["Method", ""],
            ["Material", ""], ["Measurement", ""], ["Environment", ""]]] := by
  have h1 : fishboneRows r.d4_root_cause.fishbone
      = [["Manpower", ""], ["Machine", "worn bearing"], ["Method", ""],
         ["Material", ""], ["Measurement", ""], ["Environment", ""]] := by
    rw [h]
    decide
  refine ⟨h1, by rw [h1]; rfl, ?_⟩
  simp only [pdfBlocksAfterWhys, h1]

/-- The report used to exercise the fishbone export. -/
def demoReportC6 : Report :=
  { id := "r2", title := "Informe de prueba 2",
    d1_team := [],
    d2_problem := ⟨"", "", "", "", "", "", ""⟩,
    d3_containment := [],
    d4_root_cause := ⟨[""], ⟨[], ["worn bearing"], [], [], [], []⟩⟩ }

/-- C6 witness: the six fishbone rows for the concrete report. -/
theorem export_fishbone_rows_witness :
    fishboneRows demoReportC6.d4_root_cause.fishbone
      = [["Manpower", ""], ["Machine", "worn bearing"], ["Method", ""],
         ["Material", ""], ["Measurement", ""], ["Environment", ""]] :=
  (export_fishbone_rows demoReportC6 rfl).1

/-- C7: clicking a card's delete button opens the confirmation modal
without bubbling to the card's select handler, and confirming the delete
removes the document but never changes the screen or the report selection —
deleting from the Dashboard never navigates into the Workspace. -/
theorem delete_report_no_navigation (ds : DashState) (id : String)
    (dbOk deleteFails : Bool) :
    (dispatchDeleteClick ds id).app.view = ds.app.view
    ∧ (dispatchDeleteClick ds id).app.activeReportId = ds.app.activeReportId
    ∧ (confirmDelete dbOk deleteFails (dispatchDeleteClick ds id)).app.view = ds.app.view
    ∧ (confirmDelete dbOk deleteFails (dispatchDeleteClick ds id)).app.activeReportId
        = ds.app.activeReportId
    ∧ (dbOk = true → deleteFails = false →
        getKey (confirmDelete dbOk deleteFails (dispatchDeleteClick ds id)).app.store id
          = none) := by
  refine ⟨rfl, rfl, rfl, rfl, ?_⟩
  rintro rfl rfl
  simp [confirmDelete, dispatchDeleteClick, openDeleteModal, handleDeleteReport,
    getKey_removeKey]

/-- The dashboard state used to exercise the delete flow. -/
def demoDashC7 : DashState :=
  { app := { view := View.dashboard, activeReportId := none,
             store := [("r1", JValue.str "x")] },
    modalOpen := false, reportToDelete := none }

/-- C7 witness: deleting `r1` from the concrete dashboard keeps the screen
on the dashboard and removes the document. -/
theorem delete_report_no_navigation_witness :
    (confirmDelete true false (dispatchDeleteClick demoDashC7 "r1")).app.view
      = View.dashboard
    ∧ getKey (confirmDelete true false (dispatchDeleteClick demoDashC7 "r1")).app.store "r1"
      = none := by
  have h := delete_report_no_navigation demoDashC7 "r1" true false
  exact ⟨h.2.2.1, h.2.2.2.2 rfl rfl⟩

/-- C8: when the identity or the storage handle is unavailable, report
creation is a silent no-op — no write, no crash, no transition to the
Workspace; on success the store's create returns the new id and the handler
navigates directly into editing that report. -/
theorem create_report_guard_and_success (dbOk : Bool) (userId : Option String)
    (createFails : Bool) (dateStr newId : String) (s : AppState) :
    (dbOk = false ∨ userId = none →
       handleCreateNewReport dbOk userId createFails dateStr newId s = s)
    ∧ (∀ uid, dbOk = true → userId = some uid → createFails = false →
        (handleCreateNewReport dbOk userId createFails dateStr newId s).view
            = View.workspace
        ∧ (handleCreateNewReport dbOk userId createFails dateStr newId s).activeReportId
            = some newId
        ∧ getKey (handleCreateNewReport dbOk userId createFails dateStr newId s).store newId
            = some (newReportJson uid dateStr)) := by
  constructor
  · rintro (rfl | rfl)
    · cases userId <;> rfl
    · cases dbOk <;> rfl
  · rintro uid rfl rfl rfl
    refine ⟨rfl, rfl, ?_⟩
    simp [handleCreateNewReport, addDocReport, getKey]

/-- The app state used to exercise report creation. -/
def demoAppC8 : AppState :=
  { view := View.dashboard, activeReportId := none, store := [] }

/-- C8 witness: with no identity the create call is the identity on the
state; with identity and store present it navigates into the new report. -/
theorem create_report_guard_and_success_witness :
    handleCreateNewReport false none false "1/1/2026" "r1" demoAppC8 = demoAppC8
    ∧ (handleCreateNewReport true (some "user01") false "1/1/2026" "r1" demoAppC8).view
        = View.workspace
    ∧ (handleCreateNewReport true (some "user01") false "1/1/2026" "r1" demoAppC8).activeReportId
        = some "r1"
    ∧ getKey (handleCreateNewReport true (some "user01") false "1/1/2026" "r1" demoAppC8).store "r1"
        = some (newReportJson "user01" "1/1/2026") := by
  have h1 := (create_report_guard_and_success false none false "1/1/2026" "r1"
    demoAppC8).1 (Or.inl rfl)
  have h2 := (create_report_guard_and_success true (some "user01") false "1/1/2026" "r1"
    demoAppC8).2 "user01" rfl rfl rfl
  exact ⟨h1, h2.1, h2.2.1, h2.2.2⟩

/-- C9 counterexample: the generated default title is not the English
string `New Report – <date>` claimed by the spec. -/
theorem create_title_not_english :
    newReportTitle "1/1/2026" ≠ "New Report – 1/1/2026" := by
  decide

/-- C9 (amended): the default title is the generated Spanish string
`Nuevo Informe 8D - <date>`, derived from the current date, and it is the
`title` field of the created document. -/
theorem create_title_spanish (uid dateStr : String) :
    newReportTitle dateStr = "Nuevo Informe 8D - " ++ dateStr
    ∧ getKey (jFields (newReportJson uid dateStr)) "title"
        = some (JValue.str (newReportTitle dateStr)) :=
  ⟨rfl, rfl⟩

/-- C10: `handleUpdate` and `handleDeepUpdate` are guarded by the same
precondition and issue the identical single-field store update at the same
document path — their store effects coincide on all inputs, and one logs an
error exactly when the other does. -/
theorem update_handlers_coincide (dbOk : Bool) (rid : Option String)
    (writeFails : Bool) (p : String) (v : JValue) (st : Store) :
    (handleUpdate dbOk rid writeFails p v st).1
      = (handleDeepUpdate dbOk rid writeFails p v st).1
    ∧ ((handleUpdate dbOk rid writeFails p v st).2 = []
        ↔ (handleDeepUpdate dbOk rid writeFails p v st).2 = []) := by
  cases dbOk <;> cases rid <;> cases writeFails <;>
    simp [handleUpdate, handleDeepUpdate]
